import Mathlib

/-
Verification of `morse/middleware/ros/abstract_ros.py`, the MORSE → ROS
datastream adapter.  The Python classes are shallowly embedded as pure
Lean functions over explicit state records:

* `AbstractROS`   — topic-name derivation and base initialization;
* `ROSPublisher`  — a publisher state (topic name, frame id, sequence
  counter, and the list of messages handed to `rospy.Publisher.publish`,
  which models the outbound topic);
* `ROSPublisherTF` — the transform broadcaster; the class-level `/tf`
  publisher is modelled as a separate log of `tfMessage`s;
* `ROSReader`     — the one-slot inbound mailbox (`self.message`), with
  Python truthiness of messages made explicit as a `truthy : α → Bool`
  parameter, since `default` tests `if self.message:`.

Message payloads, translations, rotations and times are opaque type
parameters: the adapter never inspects them.
-/

/-- Embedding of `re.sub(r'\.([0-9]+)', r'\1', s)` from
`AbstractROS.get_topic_name`: scanning left to right, a `'.'` followed by
a maximal nonempty run of decimal digits is replaced by that run of
digits (i.e. the dot is deleted), and scanning resumes after the run,
exactly as `re.sub` consumes its match. -/
def subDotDigits : List Char → List Char
  | [] => []
  | c :: rest =>
    if c = '.' ∧ rest.head?.any Char.isDigit = true then
      rest.takeWhile Char.isDigit ++ subDotDigits (rest.dropWhile Char.isDigit)
    else
      c :: subDotDigits rest
termination_by l => l.length
decreasing_by
  · simp only [List.length_cons]
    exact Nat.lt_succ_of_le (List.dropWhile_sublist _).length_le
  · simp

/-- Embedding of Python `s.replace('.', '/')`: every `'.'` becomes `'/'`. -/
def pyReplaceDotSlash (l : List Char) : List Char :=
  l.map (fun c => if c = '.' then '/' else c)

/-- Embedding of `AbstractROS.get_topic_name`:
`'/' + re.sub(r'\.([0-9]+)', r'\1', component_name).replace('.', '/')`. -/
def AbstractROS.get_topic_name (component_name : String) : String :=
  String.mk ('/' :: pyReplaceDotSlash (subDotDigits component_name.data))

/-- Spec-side description of the regular-expression pass (for the C2
refinement): delete each `'.'` that immediately precedes a decimal
digit, leaving everything else unchanged. -/
def specDropDotBeforeDigit : List Char → List Char
  | [] => []
  | c :: rest =>
    if c = '.' ∧ rest.head?.any Char.isDigit = true then
      specDropDotBeforeDigit rest
    else
      c :: specDropDotBeforeDigit rest

/-- Spec-side description of `get_topic_name` (for the C2 refinement):
delete each `'.'` immediately preceding a run of decimal digits, replace
every remaining `'.'` with `'/'`, and prepend a leading `'/'`. -/
def get_topic_name_fromSpec (component_name : String) : String :=
  String.mk ('/' :: pyReplaceDotSlash (specDropDotBeforeDigit component_name.data))

lemma specDropDotBeforeDigit_digits_append (l r : List Char)
    (hl : ∀ c ∈ l, c.isDigit = true) :
    specDropDotBeforeDigit (l ++ r) = l ++ specDropDotBeforeDigit r := by
  induction l with
  | nil => rfl
  | cons d ds ih =>
    have hd : d.isDigit = true := hl d (List.mem_cons_self d ds)
    have hne : ¬ (d = '.' ∧ (ds ++ r).head?.any Char.isDigit = true) := by
      rintro ⟨h1, -⟩
      subst h1
      simp [Char.isDigit] at hd
    simp only [List.cons_append, specDropDotBeforeDigit, List.append_eq, if_neg hne]
    rw [ih (fun c hc => hl c (List.mem_cons_of_mem d hc))]

lemma subDotDigits_eq_specDrop_aux (n : Nat) :
    ∀ l : List Char, l.length ≤ n → subDotDigits l = specDropDotBeforeDigit l := by
  induction n with
  | zero =>
    intro l hl
    have : l = [] := List.length_eq_zero.mp (Nat.le_zero.mp hl)
    subst this
    simp [subDotDigits, specDropDotBeforeDigit]
  | succ n ih =>
    intro l hl
    match l with
    | [] => simp [subDotDigits, specDropDotBeforeDigit]
    | c :: rest =>
      by_cases h : c = '.' ∧ rest.head?.any Char.isDigit = true
      · have hrest : rest = rest.takeWhile Char.isDigit ++ rest.dropWhile Char.isDigit :=
          (List.takeWhile_append_dropWhile Char.isDigit rest).symm
        have hlen : (rest.dropWhile Char.isDigit).length ≤ n :=
          le_trans (List.dropWhile_sublist _).length_le
            (Nat.le_of_succ_le_succ (by simpa using hl))
        calc subDotDigits (c :: rest)
            = rest.takeWhile Char.isDigit ++ subDotDigits (rest.dropWhile Char.isDigit) := by
              rw [subDotDigits, if_pos h]
          _ = rest.takeWhile Char.isDigit ++ specDropDotBeforeDigit (rest.dropWhile Char.isDigit) := by
              rw [ih _ hlen]
          _ = specDropDotBeforeDigit (rest.takeWhile Char.isDigit ++ rest.dropWhile Char.isDigit) := by
              rw [specDropDotBeforeDigit_digits_append _ _
                (fun c hc => List.mem_takeWhile_imp hc)]
          _ = specDropDotBeforeDigit (c :: rest) := by
              rw [← hrest, specDropDotBeforeDigit, if_pos h]
      · have hlen : rest.length ≤ n := Nat.le_of_succ_le_succ (by simpa using hl)
        rw [subDotDigits, if_neg h, specDropDotBeforeDigit, if_neg h, ih _ hlen]

lemma subDotDigits_eq_specDrop (l : List Char) :
    subDotDigits l = specDropDotBeforeDigit l :=
  subDotDigits_eq_specDrop_aux l.length l le_rfl

/-- C2: for every component name, `get_topic_name` deletes each `'.'`
immediately preceding a run of decimal digits, replaces every remaining
`'.'` with `'/'` and prepends a leading `'/'`; in particular
`'robot.001.sensor.001'` yields `'/robot001/sensor001'`. -/
theorem get_topic_name_spec :
    (∀ s : String, AbstractROS.get_topic_name s = get_topic_name_fromSpec s) ∧
    AbstractROS.get_topic_name "robot.001.sensor.001" = "/robot001/sensor001" := by
  have hall : ∀ s : String, AbstractROS.get_topic_name s = get_topic_name_fromSpec s := by
    intro s
    unfold AbstractROS.get_topic_name get_topic_name_fromSpec
    rw [subDotDigits_eq_specDrop]
  refine ⟨hall, ?_⟩
  rw [hall]
  decide

/-- Embedding of the keyword arguments the adapter reads from
`self.kwargs`: `'topic'`, `'topic_suffix'`, `'frame_id'` and
`'parent_frame_id'`; `none` means the key is absent. -/
structure Kwargs where
  topic : Option String
  topic_suffix : Option String
  frame_id : Option String
  parent_frame_id : Option String

/-- State established by `AbstractROS.initialize`: the derived
`self.topic_name` (the `rospy.init_node` call and `self.topic = None`
are middleware side effects with no data content). -/
structure AbstractState where
  topic_name : String

/-- Embedding of `AbstractROS.initialize`: `self.topic_name` is the
`'topic'` kwarg when present, otherwise `self.get_topic_name()`. -/
def AbstractROS.init (kwargs : Kwargs) (component_name : String) : AbstractState :=
  { topic_name :=
      match kwargs.topic with
      | some t => t
      | none => AbstractROS.get_topic_name component_name }

/-- Embedding of `std_msgs.msg.Header` as used here: `stamp`
(`rospy.Time`, modelled as an abstract Nat), `seq` and `frame_id`.
A freshly constructed `Header()` has `seq = 0`. -/
structure Header where
  stamp : Nat
  seq : Nat
  frame_id : String

/-- State of a `ROSPublisher` (over an opaque message type `α`):
`self.topic_name`, the (possibly suffixed) topic the
`rospy.Publisher` was created on, `self.frame_id`, `self.sequence`,
and the list of messages handed to `self.topic.publish`, which models
the outbound topic. -/
structure PubState (α : Type) where
  topic_name : String
  publisher_topic : String
  frame_id : String
  sequence : Nat
  published : List α

/-- Embedding of `ROSPublisher.initialize`: runs the base
initialization, appends the `'topic_suffix'` kwarg (if any) to the
topic the publisher is created on (without changing
`self.topic_name`), sets `self.frame_id` to the `'frame_id'` kwarg or
else `self.topic_name`, and sets `self.sequence = 0`. -/
def ROSPublisher.init (α : Type) (kwargs : Kwargs) (component_name : String) : PubState α :=
  let base := AbstractROS.init kwargs component_name
  { topic_name := base.topic_name
    publisher_topic :=
      match kwargs.topic_suffix with
      | some suffix => base.topic_name ++ suffix
      | none => base.topic_name
    frame_id :=
      match kwargs.frame_id with
      | some f => f
      | none => base.topic_name
    sequence := 0
    published := [] }

/-- Embedding of `ROSPublisher.get_ros_header`: a `Header` whose stamp
is `rospy.Time.now()` (passed in as `now`), whose `seq` is
`self.sequence` and whose `frame_id` is `self.frame_id`.  The Python
method reads but never writes `self`, which the embedding reflects by
being a pure function of the state. -/
def ROSPublisher.get_ros_header (s : PubState α) (now : Nat) : Header :=
  { stamp := now, seq := s.sequence, frame_id := s.frame_id }

/-- Embedding of `ROSPublisher.publish`: hand `message` to
`self.topic.publish` (append it to the outbound log) and increment
`self.sequence` by one. -/
def ROSPublisher.publish (s : PubState α) (message : α) : PubState α :=
  { s with published := s.published ++ [message], sequence := s.sequence + 1 }

/-- C3: the sequence counter is `0` right after `ROSPublisher.initialize`,
each `publish` increments it by exactly one, it never decreases across
any sequence of `publish` calls, and after publishing any list of
messages from a fresh publisher it equals the number of messages
published so far. -/
theorem publish_sequence_counts {α : Type} :
    (∀ (kwargs : Kwargs) (cn : String), (ROSPublisher.init α kwargs cn).sequence = 0) ∧
    (∀ (s : PubState α) (m : α), (ROSPublisher.publish s m).sequence = s.sequence + 1) ∧
    (∀ (s : PubState α) (msgs : List α),
      s.sequence ≤ (msgs.foldl ROSPublisher.publish s).sequence) ∧
    (∀ (kwargs : Kwargs) (cn : String) (msgs : List α),
      (msgs.foldl ROSPublisher.publish (ROSPublisher.init α kwargs cn)).sequence
        = msgs.length ∧
      (msgs.foldl ROSPublisher.publish (ROSPublisher.init α kwargs cn)).published.length
        = msgs.length) := by
  have hstep : ∀ (s : PubState α) (m : α),
      (ROSPublisher.publish s m).sequence = s.sequence + 1 := fun s m => rfl
  have hfold : ∀ (msgs : List α) (s : PubState α),
      (msgs.foldl ROSPublisher.publish s).sequence = s.sequence + msgs.length := by
    intro msgs
    induction msgs with
    | nil => intro s; simp
    | cons m ms ih =>
      intro s
      simp only [List.foldl_cons, ih, hstep, List.length_cons]
      omega
  have hfoldpub : ∀ (msgs : List α) (s : PubState α),
      (msgs.foldl ROSPublisher.publish s).published.length
        = s.published.length + msgs.length := by
    intro msgs
    induction msgs with
    | nil => intro s; simp
    | cons m ms ih =>
      intro s
      simp only [List.foldl_cons, ih, ROSPublisher.publish, List.length_append,
        List.length_cons, List.length_nil]
      omega
  refine ⟨fun kwargs cn => rfl, hstep, ?_, ?_⟩
  · intro s msgs
    rw [hfold]
    omega
  · intro kwargs cn msgs
    constructor
    · rw [hfold]
      simp [ROSPublisher.init]
    · rw [hfoldpub]
      simp [ROSPublisher.init]

/-- C7: `get_ros_header` returns a header whose `seq` equals the current
sequence counter and whose `frame_id` equals the publisher's configured
frame id; that configured frame id is the `'frame_id'` kwarg when
present and the topic name otherwise.  `get_ros_header` is a pure
function of the state, embedding that the method modifies nothing. -/
theorem get_ros_header_spec {α : Type} (s : PubState α) (now : Nat) :
    (ROSPublisher.get_ros_header s now).seq = s.sequence ∧
    (ROSPublisher.get_ros_header s now).frame_id = s.frame_id ∧
    (ROSPublisher.get_ros_header s now).stamp = now ∧
    (∀ (kwargs : Kwargs) (cn : String) (f : String), kwargs.frame_id = some f →
      (ROSPublisher.init α kwargs cn).frame_id = f) ∧
    (∀ (kwargs : Kwargs) (cn : String), kwargs.frame_id = none →
      (ROSPublisher.init α kwargs cn).frame_id
        = (AbstractROS.init kwargs cn).topic_name) := by
  refine ⟨rfl, rfl, rfl, ?_, ?_⟩
  · intro kwargs cn f hf
    simp [ROSPublisher.init, hf]
  · intro kwargs cn hf
    simp [ROSPublisher.init, hf]

/-- Witness for C7 at a concrete publisher state and kwargs. -/
theorem get_ros_header_spec_witness :
    (ROSPublisher.get_ros_header
        (PubState.mk "/a" "/a" "map" 5 ([] : List Nat)) 7).seq = 5 ∧
    (ROSPublisher.init Nat (Kwargs.mk none none (some "map") none) "a").frame_id = "map" :=
  ⟨(get_ros_header_spec (PubState.mk "/a" "/a" "map" 5 ([] : List Nat)) 7).1,
   ((get_ros_header_spec (PubState.mk "/a" "/a" "map" 5 ([] : List Nat)) 7).2.2.2.1
      (Kwargs.mk none none (some "map") none) "a" "map" rfl)⟩

/-- C8: when the `'topic'` kwarg is present, initialization takes it
verbatim as the topic name and the hierarchy-based derivation is not
applied (the result is independent of the component name); only when it
is absent is `get_topic_name` used. -/
theorem topic_kwarg_overrides_derivation (kwargs : Kwargs) (cn : String) :
    (∀ t, kwargs.topic = some t → (AbstractROS.init kwargs cn).topic_name = t) ∧
    (∀ t, kwargs.topic = some t → ∀ cn2,
      AbstractROS.init kwargs cn = AbstractROS.init kwargs cn2) ∧
    (kwargs.topic = none →
      (AbstractROS.init kwargs cn).topic_name = AbstractROS.get_topic_name cn) := by
  refine ⟨?_, ?_, ?_⟩
  · intro t ht
    simp [AbstractROS.init, ht]
  · intro t ht cn2
    simp [AbstractROS.init, ht]
  · intro ht
    simp [AbstractROS.init, ht]

/-- Witness for C8 at concrete kwargs with and without a topic. -/
theorem topic_kwarg_overrides_derivation_witness :
    (AbstractROS.init (Kwargs.mk (some "/override") none none none) "rob.1").topic_name
      = "/override" ∧
    (AbstractROS.init (Kwargs.mk none none none none) "rob.1").topic_name
      = AbstractROS.get_topic_name "rob.1" :=
  ⟨(topic_kwarg_overrides_derivation (Kwargs.mk (some "/override") none none none)
      "rob.1").1 "/override" rfl,
   (topic_kwarg_overrides_derivation (Kwargs.mk none none none none) "rob.1").2.2 rfl⟩

/-- Embedding of `geometry_msgs.msg.Transform` over opaque translation
and rotation types `V` and `Q` (the adapter never inspects them). -/
structure Transform (V Q : Type) where
  translation : V
  rotation : Q

/-- Embedding of `geometry_msgs.msg.TransformStamped`: a header, a
child frame id, and a transform. -/
structure TransformStamped (V Q : Type) where
  header : Header
  child_frame_id : String
  transform : Transform V Q

/-- Modelled from the spec: `morse.middleware.ros.tfMessage.tfMessage`
is imported by the file but its definition is not under `src/`; the
spec calls it "a platform-provided message struct", and
`ROSPublisherTF.sendTransform` builds it as `tfMessage([t])` from a
list of `TransformStamped`.  It is modelled as a record holding that
list of transforms. -/
structure tfMessage (V Q : Type) where
  transforms : List (TransformStamped V Q)

/-- State of a `ROSPublisherTF`: the inherited `ROSPublisher` state
plus the log of messages handed to the class-level `/tf` publisher
`ROSPublisherTF.topic_tf` (created on topic `"/tf"`). -/
structure TFPubState (α V Q : Type) where
  pub : PubState α
  tfLog : List (tfMessage V Q)

/-- Topic on which `ROSPublisherTF.initialize` creates the class-level
transform publisher: `rospy.Publisher("/tf", tfMessage)`. -/
def ROSPublisherTF.tf_topic : String := "/tf"

/-- Embedding of `ROSPublisherTF.publish_tf`: hand `message` to
`ROSPublisherTF.topic_tf.publish`; no instance attribute is touched. -/
def ROSPublisherTF.publish_tf (s : TFPubState α V Q) (message : tfMessage V Q) :
    TFPubState α V Q :=
  { s with tfLog := s.tfLog ++ [message] }

/-- Embedding of `ROSPublisherTF.sendTransform`: build a
`TransformStamped` with `header.frame_id = parent`,
`header.stamp = time` (a fresh `Header()` leaves `seq = 0`),
`child_frame_id = child` and the given translation and rotation, wrap
it as `tfMessage([t])` and publish it via `publish_tf`. -/
def ROSPublisherTF.sendTransform (s : TFPubState α V Q)
    (translation : V) (rotation : Q) (time : Nat) (child parent : String) :
    TFPubState α V Q :=
  let t : TransformStamped V Q :=
    { header := { stamp := time, seq := 0, frame_id := parent }
      child_frame_id := child
      transform := { translation := translation, rotation := rotation } }
  ROSPublisherTF.publish_tf s { transforms := [t] }

/-- Embedding of Python `if not x: x = d` for an optional string
argument: `None` and the empty string (both falsy) are replaced by the
default. -/
def orDefaultStr (x : Option String) (d : String) : String :=
  match x with
  | none => d
  | some s => if s = "" then d else s

/-- Embedding of Python `if not time: time = rospy.Time.now()` with
`rospy.Time` modelled as a Nat: `None` and the zero time (both falsy)
are replaced by now. -/
def orDefaultTime (x : Option Nat) (now : Nat) : Nat :=
  match x with
  | none => now
  | some t => if t = 0 then now else t

/-- Embedding of `ROSPublisherTF.send_transform_robot`: the local
translation and rotation read from the component's `bge_object` and
the current time are passed in as parameters; `time` defaults to now,
`child` to `self.frame_id`, `parent` to the `'parent_frame_id'` kwarg
or `'base_link'`; then `sendTransform` broadcasts them. -/
def ROSPublisherTF.send_transform_robot (kwargs : Kwargs) (s : TFPubState α V Q)
    (localTranslation : V) (localRotation : Q) (now : Nat)
    (time : Option Nat) (child parent : Option String) : TFPubState α V Q :=
  let time2 := orDefaultTime time now
  let child2 := orDefaultStr child s.pub.frame_id
  let parent2 := orDefaultStr parent
    (match kwargs.parent_frame_id with
     | some p => p
     | none => "base_link")
  ROSPublisherTF.sendTransform s localTranslation localRotation time2 child2 parent2

/-- C6: `sendTransform` appends to the `/tf` topic exactly one
`tfMessage` holding exactly one `TransformStamped` whose
`header.frame_id` is `parent`, `header.stamp` is `time`,
`child_frame_id` is `child`, and whose transform carries the given
translation and rotation; the transform publisher's topic is `"/tf"`. -/
theorem sendTransform_spec {α V Q : Type} (s : TFPubState α V Q)
    (translation : V) (rotation : Q) (time : Nat) (child parent : String) :
    (ROSPublisherTF.sendTransform s translation rotation time child parent).tfLog
      = s.tfLog ++
        [{ transforms :=
            [{ header := { stamp := time, seq := 0, frame_id := parent }
               child_frame_id := child
               transform := { translation := translation, rotation := rotation } }] }] ∧
    ROSPublisherTF.tf_topic = "/tf" :=
  ⟨rfl, rfl⟩

/-- C9: `publish_tf`, `sendTransform` and `send_transform_robot` leave
the whole inherited publisher state — in particular the sequence
counter — unchanged, while the generic `publish` increments the
sequence counter. -/
theorem tf_publish_preserves_pub {α V Q : Type} (s : TFPubState α V Q) :
    (∀ m : tfMessage V Q, (ROSPublisherTF.publish_tf s m).pub = s.pub) ∧
    (∀ (translation : V) (rotation : Q) (time : Nat) (child parent : String),
      (ROSPublisherTF.sendTransform s translation rotation time child parent).pub
        = s.pub) ∧
    (∀ (kwargs : Kwargs) (lt : V) (lr : Q) (now : Nat)
        (time : Option Nat) (child parent : Option String),
      (ROSPublisherTF.send_transform_robot kwargs s lt lr now time child parent).pub
        = s.pub) ∧
    (∀ (ps : PubState α) (msg : α),
      (ROSPublisher.publish ps msg).sequence = ps.sequence + 1) :=
  ⟨fun _ => rfl, fun _ _ _ _ _ => rfl, fun _ _ _ _ _ _ _ => rfl, fun _ _ => rfl⟩

/-- State of a `ROSReader`: the one-slot mailbox `self.message`, which
is `None` (`none`) or holds exactly one message. -/
structure ReaderState (α : Type) where
  message : Option α

/-- Embedding of `ROSReader.initialize`: `self.message = None`. -/
def ROSReader.init (α : Type) : ReaderState α :=
  { message := none }

/-- Embedding of `ROSReader.callback`: store the incoming message only
when `self.message is None`; otherwise the slot is left as it is and
the incoming message is discarded. -/
def ROSReader.callback (s : ReaderState α) (message : α) : ReaderState α :=
  match s.message with
  | none => { message := some message }
  | some _ => s

/-- Embedding of Python truthiness of `self.message`: `None` is falsy,
a held message is as truthy as `truthy` says `bool(message)` is. -/
def pyTruthyOpt (truthy : α → Bool) : Option α → Bool
  | none => false
  | some m => truthy m

/-- Embedding of `ROSReader.default`: `if self.message:` tests Python
truthiness; on a truthy slot the message is passed to `self.update`,
the slot is set back to `None` and `True` is returned; otherwise
nothing changes and `False` is returned.  The result is the new state,
the argument passed to `update` (`none` when `update` is not called),
and the returned boolean. -/
def ROSReader.default (truthy : α → Bool) (s : ReaderState α) :
    ReaderState α × Option α × Bool :=
  match s.message with
  | some m =>
    if truthy m then ({ message := none }, some m, true)
    else (s, none, false)
  | none => (s, none, false)

/-- One step of a `ROSReader`: either `rospy` delivers a message to
`callback`, or the simulator runs `default`. -/
inductive ReaderStep (truthy : α → Bool) : ReaderState α → ReaderState α → Prop
  | callback (s : ReaderState α) (m : α) :
      ReaderStep truthy s (ROSReader.callback s m)
  | run_default (s : ReaderState α) :
      ReaderStep truthy s (ROSReader.default truthy s).1

/-- States a `ROSReader` can reach from initialization by any
interleaving of `callback` and `default` calls. -/
inductive ReaderReachable (truthy : α → Bool) : ReaderState α → Prop
  | init : ReaderReachable truthy (ROSReader.init α)
  | step {s s2 : ReaderState α} :
      ReaderReachable truthy s → ReaderStep truthy s s2 → ReaderReachable truthy s2

/-- Number of unread messages buffered in the mailbox. -/
def bufferCount (s : ReaderState α) : Nat :=
  match s.message with
  | none => 0
  | some _ => 1

/-- C1 counterexample: with the Nat message `0` still unread in the
slot, `callback 1` does not leave the newer message `1` in the slot —
the code keeps the older one. -/
theorem callback_keeps_newer_cex :
    ¬ ((ROSReader.callback (ReaderState.mk (some (0 : Nat))) 1).message = some 1) := by
  decide

/-- C1 (amended): when `callback` is invoked while an unread message is
still buffered, the NEWER incoming message is silently dropped and the
slot keeps the older unread message; only when the slot is empty is
the incoming message stored. -/
theorem callback_drops_newer {α : Type} (s : ReaderState α) (m : α) :
    (∀ old, s.message = some old → (ROSReader.callback s m).message = some old) ∧
    (s.message = none → (ROSReader.callback s m).message = some m) := by
  constructor
  · intro old hold
    simp [ROSReader.callback, hold]
  · intro hnone
    simp [ROSReader.callback, hnone]

/-- Witness for the amended C1 at a concrete occupied slot. -/
theorem callback_drops_newer_witness :
    (ROSReader.callback (ReaderState.mk (some (0 : Nat))) 1).message = some 0 :=
  (callback_drops_newer (ReaderState.mk (some (0 : Nat))) 1).1 0 rfl

/-- C4 counterexample: with the falsy Bool message `false` buffered,
`default` neither returns `True` nor clears the slot, refuting the
claim that a held message is always consumed with result `True`. -/
theorem default_held_message_cex :
    ¬ (((ROSReader.default (fun b : Bool => b) (ReaderState.mk (some false))).2.2 = true)
        ∧ (ROSReader.default (fun b : Bool => b) (ReaderState.mk (some false))).1.message
            = none) := by
  decide

/-- C4 (amended): when the slot holds a truthy message, `default`
passes it to `update`, clears the slot and returns `True`; when the
slot is empty, and also when it holds a falsy message, `default`
returns `False`, does not call `update`, and leaves the state
unchanged. -/
theorem default_spec {α : Type} (truthy : α → Bool) (s : ReaderState α) :
    (∀ m, s.message = some m → truthy m = true →
      ROSReader.default truthy s = (ReaderState.mk none, some m, true)) ∧
    (s.message = none → ROSReader.default truthy s = (s, none, false)) ∧
    (∀ m, s.message = some m → truthy m = false →
      ROSReader.default truthy s = (s, none, false)) := by
  refine ⟨?_, ?_, ?_⟩
  · intro m hm ht
    simp [ROSReader.default, hm, ht]
  · intro hn
    simp [ROSReader.default, hn]
  · intro m hm ht
    simp [ROSReader.default, hm, ht]

/-- Witness for the amended C4: a truthy buffered message is consumed
with result `True`, and an empty slot gives `False` unchanged. -/
theorem default_spec_witness :
    ROSReader.default (fun b : Bool => b) (ReaderState.mk (some true))
      = (ReaderState.mk none, some true, true) ∧
    ROSReader.default (fun b : Bool => b) (ReaderState.mk none)
      = (ReaderState.mk none, none, false) :=
  ⟨(default_spec (fun b : Bool => b) (ReaderState.mk (some true))).1 true rfl rfl,
   (default_spec (fun b : Bool => b) (ReaderState.mk none)).2.1 rfl⟩

/-- C5: in every state reachable from initialization by any
interleaving of `callback` and `default` calls, at most one unread
message is buffered. -/
theorem reader_buffers_at_most_one {α : Type} (truthy : α → Bool)
    (s : ReaderState α) (_h : ReaderReachable truthy s) :
    bufferCount s ≤ 1 := by
  cases hs : s.message with
  | none => simp [bufferCount, hs]
  | some m => simp [bufferCount, hs]

/-- Witness for C5 at the initial state over Nat messages. -/
theorem reader_buffers_at_most_one_witness :
    bufferCount (ROSReader.init Nat) ≤ 1 :=
  reader_buffers_at_most_one (fun _ : Nat => true) (ROSReader.init Nat)
    ReaderReachable.init

/-- C10: when the slot holds a falsy (non-`None`) message, `default`
returns `False` and leaves the slot occupied; since `callback` only
stores into a `None` slot, every later incoming message is discarded
and the state is absorbing under both operations — the falsy message
is never consumed.  In general, `default` returns `True` iff the
buffered message is truthy. -/
theorem default_falsy_stuck {α : Type} (truthy : α → Bool) (s : ReaderState α)
    (m : α) (hm : s.message = some m) (hf : truthy m = false) :
    ROSReader.default truthy s = (s, none, false) ∧
    (∀ m2, ROSReader.callback s m2 = s) ∧
    (∀ s2, ReaderStep truthy s s2 → s2 = s) ∧
    (∀ s3 : ReaderState α,
      ((ROSReader.default truthy s3).2.2 = true
        ↔ pyTruthyOpt truthy s3.message = true)) := by
  have hdef : ROSReader.default truthy s = (s, none, false) := by
    simp [ROSReader.default, hm, hf]
  have hcb : ∀ m2, ROSReader.callback s m2 = s := by
    intro m2
    simp [ROSReader.callback, hm]
  refine ⟨hdef, hcb, ?_, ?_⟩
  · intro s2 hstep
    cases hstep with
    | callback m2 => rw [hcb]
    | run_default => rw [hdef]
  · intro s3
    cases hs : s3.message with
    | none => simp [ROSReader.default, pyTruthyOpt, hs]
    | some m3 =>
      by_cases ht : truthy m3 = true
      · simp [ROSReader.default, pyTruthyOpt, hs, ht]
      · simp [ROSReader.default, pyTruthyOpt, hs, Bool.eq_false_iff.mpr ht,
          eq_false_of_ne_true ht]

/-- Witness for C10 with the falsy Nat message `0` buffered
(Python truthiness of an int: nonzero). -/
theorem default_falsy_stuck_witness :
    ROSReader.default (fun n : Nat => n != 0) (ReaderState.mk (some 0))
      = (ReaderState.mk (some 0), none, false) ∧
    ROSReader.callback (ReaderState.mk (some (0 : Nat))) 7 = ReaderState.mk (some 0) :=
  ⟨(default_falsy_stuck (fun n : Nat => n != 0) (ReaderState.mk (some 0)) 0
      rfl rfl).1,
   (default_falsy_stuck (fun n : Nat => n != 0) (ReaderState.mk (some 0)) 0
      rfl rfl).2.1 7⟩
